import Mathlib

/-!
Verification of the Supermaple physics/scheduler core (`src/App.tsx` and the
shared utilities module) against its specification.

Modelling conventions:
* JavaScript numbers are modelled as rationals (`ℚ`); `Math.floor` is `Int.floor`.
* The mutable object registry `boxes: { [id: string]: Box }` holds live object
  references, so it is modelled as an association list from id to a reference
  (an index) into an explicit heap of `Box` values: `Physics.heap` is the heap,
  `Physics.registry` the id-to-reference map.  Reading and writing through a
  reference (`readRef` / `writeRef`) models field access on the shared object.
* `add` defaults the box id to an RNG-derived string; the minted string is
  passed as an explicit argument (`mintedId`), standing for the `random()` call.
* `assert` throws before any mutation, so a method that throws is modelled as
  returning `Except.error` paired with the unchanged state.
* The duplicate check `id in this.boxes` uses the JS `in` operator on a plain
  object literal, which searches the prototype chain: inherited
  `Object.prototype` property keys (`toString`, `constructor`, ...) are `in`
  every plain object, so `hasId` also reports those ids as present.
* The `seedrandom` package is external to the repository; a generator built by
  it is modelled opaquely as a record of the seed it was constructed from and a
  count of values drawn from it.  The cache logic around it is from the source.
-/

/-- Box kinds, from `type BoxKind = 'solid' | 'sensor' | 'platform'`. -/
inductive BoxKind
| solid
| sensor
| platform
deriving DecidableEq, Repr

/-- A rectangular entity, from `type Box` in `App.tsx`. -/
structure Box where
  id : String
  x : ℚ
  y : ℚ
  w : ℚ
  h : ℚ
  kind : BoxKind
deriving DecidableEq, Repr

/-- The `Partial<Box>` argument of `Physics.add`: every field may be omitted. -/
structure PartialBox where
  id : Option String := none
  x : Option ℚ := none
  y : Option ℚ := none
  w : Option ℚ := none
  h : Option ℚ := none
  kind : Option BoxKind := none
deriving DecidableEq, Repr

/-- Association-list lookup, modelling `Map.get` / property access on a JS
object keyed by the first component. -/
def lookupKey {κ α : Type} [DecidableEq κ] : List (κ × α) → κ → Option α
  | [], _ => none
  | (k, v) :: rest, q => if k = q then some v else lookupKey rest q

/-- The box store of a `Physics` instance: a heap of live `Box` objects and the
`boxes` registry mapping each id to a reference (heap index). -/
structure Physics where
  heap : List Box
  registry : List (String × Nat)
deriving DecidableEq, Repr

/-- The property keys every plain JS object inherits from `Object.prototype`;
the `in` operator finds them on the empty object literal `boxes` too. -/
def objectPrototypeKeys : List String :=
  ["constructor", "hasOwnProperty", "isPrototypeOf", "propertyIsEnumerable",
   "toLocaleString", "toString", "valueOf", "__defineGetter__",
   "__defineSetter__", "__lookupGetter__", "__lookupSetter__", "__proto__"]

/-- `id in this.boxes`: the JS `in` operator searches the prototype chain of
the plain object literal `boxes`, so it is true when `id` is a registered box
id OR an inherited `Object.prototype` property key. -/
def Physics.hasId (st : Physics) (id : String) : Bool :=
  (lookupKey st.registry id).isSome || objectPrototypeKeys.contains id

/-- Dereference a box object. -/
def Physics.readRef (st : Physics) (r : Nat) : Option Box :=
  st.heap[r]?

/-- Mutate the box object behind reference `r` in place. -/
def Physics.writeRef (st : Physics) (r : Nat) (b : Box) : Physics :=
  { st with heap := st.heap.set r b }

/-- Read the registry entry for `id` (following the stored reference). -/
def Physics.getBox (st : Physics) (id : String) : Option Box :=
  (lookupKey st.registry id).bind st.readRef

/-- `Physics.add`, from `App.tsx` lines 79-85: defaults are filled
(`id = random()`-derived string, `x = 0`, `y = 0`, `w = 1`, `h = 1`,
`kind = 'solid'`), then `assert(!(id in this.boxes))` fires before any
mutation, then the new box object is stored and returned (by reference).
`mintedId` is the RNG-derived string used when `id` is omitted.  The result is
the returned reference (or the assertion error) paired with the post state. -/
def Physics.add (st : Physics) (p : PartialBox) (mintedId : String) :
    Except String Nat × Physics :=
  let id := p.id.getD mintedId
  if st.hasId id then
    (Except.error ("Box@" ++ id ++ " already exists"), st)
  else
    let box : Box :=
      { id := id, x := p.x.getD 0, y := p.y.getD 0, w := p.w.getD 1,
        h := p.h.getD 1, kind := p.kind.getD BoxKind.solid }
    (Except.ok st.heap.length,
      { heap := st.heap ++ [box],
        registry := st.registry ++ [(id, st.heap.length)] })

/-- `Physics.step`, from `App.tsx` line 87: the body is empty
(`step(onCollision?) {}`), so the state is unchanged and the collision
callback is never invoked.  The second component is the list of (unordered)
pairs of references the callback is invoked on, in invocation order. -/
def Physics.step (st : Physics) : Physics × List (Nat × Nat) :=
  (st, [])

/-- Axis-aligned overlap of the half-open rectangles
`[x, x+w) × [y, y+h)` of two boxes; the narrow-phase test the specification
states collision reporting in terms of. -/
def Box.overlaps (a b : Box) : Bool :=
  a.x < b.x + b.w && b.x < a.x + a.w && a.y < b.y + b.h && b.y < a.y + a.h

/-- The simulation clock of a `Physics` instance (`stepMs`, `startTime`,
`lastTime` from the constructor, lines 67-72). -/
structure Clock where
  stepMs : ℚ
  startTime : ℚ
  lastTime : ℚ
deriving DecidableEq, Repr

/-- `floor((lastTime - startTime) / stepMs)`, as computed at line 144. -/
def pastFramesOf (c : Clock) : ℤ :=
  ⌊(c.lastTime - c.startTime) / c.stepMs⌋

/-- `floor((time - startTime) / stepMs)`, as computed at line 145. -/
def allFramesOf (c : Clock) (t : ℚ) : ℤ :=
  ⌊(t - c.startTime) / c.stepMs⌋

/-- One scheduler tick, from `onAnimationFrame` (`App.tsx` lines 136-171):
compute `pastFrames`, `allFrames` and `fastForwardFrames = allFrames -
pastFrames`; if `fastForwardFrames` is nonzero (JS truthiness of the number)
set `lastTime` to the sampled `time`; then run the loop
`for (f = 0; f < fastForwardFrames; f++)`, which executes
`physics.step` once per iteration with frame index `pastFrames + f`.
The result is the updated clock, the physics state after the executed steps,
and the list of executed frame indices in execution order.  (The
`physics.startTime = physics.startTime ?? time` lines are identities, since
both fields are initialised to `Date.now()` and never nullish.) -/
def onAnimationFrame (c : Clock) (ph : Physics) (t : ℚ) :
    Clock × Physics × List ℤ :=
  let pastFrames := pastFramesOf c
  let allFrames := allFramesOf c t
  let fastForwardFrames := allFrames - pastFrames
  let c' := if fastForwardFrames = 0 then c else { c with lastTime := t }
  let frames := (List.range fastForwardFrames.toNat).map fun f : ℕ => pastFrames + (f : ℤ)
  let ph' := frames.foldl (fun p _ => (Physics.step p).1) ph
  (c', ph', frames)

/-- A generator built by the external `seedrandom(seed)` call, modelled
opaquely: the seed it was constructed from and how many values have been
drawn from it.  `seed = none` is the implicit "no seed" key. -/
structure PRNG where
  seed : Option String
  draws : Nat
deriving DecidableEq, Repr

/-- The process-wide RNG state: the `random_cache` map from seed to a
reference (index) into the heap `gens` of live generator instances. -/
structure RandomState where
  random_cache : List (Option String × Nat)
  gens : List PRNG
deriving DecidableEq, Repr

/-- The module-level `new Map()`: empty cache, no generators. -/
def RandomState.init : RandomState :=
  { random_cache := [], gens := [] }

/-- Draw one value from the generator behind reference `r`. -/
def drawAt (gens : List PRNG) (r : Nat) : List PRNG :=
  match gens[r]? with
  | some g => gens.set r { g with draws := g.draws + 1 }
  | none => gens

/-- `random(seed?)` from the utilities module (lines 19-23):
`if (!random_cache.has(seed)) random_cache.set(seed, seedrandom(seed))`
then `return random_cache.get(seed)!()`.  A cache miss allocates a fresh
generator and appends the cache entry; either way one value is drawn from the
cached generator.  The second component is the reference of the generator the
value was drawn from. -/
def random (st : RandomState) (seed : Option String) : RandomState × Nat :=
  match lookupKey st.random_cache seed with
  | some r => ({ st with gens := drawAt st.gens r }, r)
  | none =>
      let r := st.gens.length
      ({ random_cache := st.random_cache ++ [(seed, r)],
         gens := drawAt (st.gens ++ [{ seed := seed, draws := 0 }]) r }, r)

/-- Run a sequence of `random` calls from the initial module state. -/
def runRandoms (seeds : List (Option String)) : RandomState :=
  seeds.foldl (fun st s => (random st s).1) RandomState.init

/-! ## Helper lemmas -/

theorem foldl_step_fst (l : List ℤ) (ph : Physics) :
    l.foldl (fun p _ => (Physics.step p).1) ph = ph := by
  induction l generalizing ph with
  | nil => rfl
  | cons a l ih => simp [Physics.step, ih ph]

theorem onAnimationFrame_physics (c : Clock) (ph : Physics) (t : ℚ) :
    (onAnimationFrame c ph t).2.1 = ph := by
  simp [onAnimationFrame, foldl_step_fst]

theorem onAnimationFrame_frames (c : Clock) (ph : Physics) (t : ℚ) :
    (onAnimationFrame c ph t).2.2 =
      (List.range (allFramesOf c t - pastFramesOf c).toNat).map
        (fun f : ℕ => pastFramesOf c + (f : ℤ)) := rfl

theorem onAnimationFrame_clock (c : Clock) (ph : Physics) (t : ℚ) :
    (onAnimationFrame c ph t).1 =
      if allFramesOf c t - pastFramesOf c = 0 then c
      else { c with lastTime := t } := rfl

/-! ## C1: per-tick step count, lastTime update, execution order -/

/-- C1 (amended): for a tick with positive `stepMs` whose wall-clock sample is
not behind `lastTime`, the number of steps executed equals
`floor((currentTime - startTime)/stepMs) - floor((lastTime - startTime)/stepMs)`;
when that difference is nonzero `lastTime` is set to `currentTime` itself (not
advanced by multiples of `stepMs`); and the executed frame indices are
`pastFrames, pastFrames+1, ..., allFrames-1` in increasing order. -/
theorem C1_scheduler_tick (c : Clock) (ph : Physics) (t : ℚ)
    (hstep : 0 < c.stepMs) (hmono : c.lastTime ≤ t) :
    ((onAnimationFrame c ph t).2.2.length : ℤ) = allFramesOf c t - pastFramesOf c
    ∧ (allFramesOf c t - pastFramesOf c ≠ 0 →
        (onAnimationFrame c ph t).1.lastTime = t)
    ∧ ∀ i : ℕ, (i : ℤ) < allFramesOf c t - pastFramesOf c →
        (onAnimationFrame c ph t).2.2[i]? = some (pastFramesOf c + (i : ℤ)) := by
  have hle : pastFramesOf c ≤ allFramesOf c t := by
    apply Int.floor_le_floor
    gcongr
  refine ⟨?_, ?_, ?_⟩
  · rw [onAnimationFrame_frames, List.length_map, List.length_range]
    exact Int.toNat_of_nonneg (by omega)
  · intro hne
    rw [onAnimationFrame_clock, if_neg hne]
  · intro i hi
    have hi' : i < (allFramesOf c t - pastFramesOf c).toNat := Int.lt_toNat.mpr hi
    rw [onAnimationFrame_frames, List.getElem?_map, List.getElem?_range hi']
    rfl

/-- C1 counterexample to the unamended claim: at a tick whose sampled time is
behind `lastTime` (here `lastTime = 50`, sample `t = 0`, `stepMs = 10`), zero
steps execute while the floor difference is `-5`, so the executed-step count
does not equal the difference. -/
theorem C1_counterexample :
    ((onAnimationFrame ⟨10, 0, 50⟩ ⟨[], []⟩ 0).2.2.length : ℤ) ≠
      allFramesOf ⟨10, 0, 50⟩ 0 - pastFramesOf ⟨10, 0, 50⟩ := by
  norm_num [onAnimationFrame, allFramesOf, pastFramesOf]

/-- C1 witness: the amended theorem applied at `stepMs = 10`,
`startTime = 0`, `lastTime = 0`, sample `t = 25`. -/
theorem C1_scheduler_tick_witness :
    (0 : ℚ) < (10 : ℚ) ∧ (0 : ℚ) ≤ (25 : ℚ)
    ∧ (((onAnimationFrame ⟨10, 0, 0⟩ ⟨[], []⟩ 25).2.2.length : ℤ)
          = allFramesOf ⟨10, 0, 0⟩ 25 - pastFramesOf ⟨10, 0, 0⟩
        ∧ (allFramesOf ⟨10, 0, 0⟩ 25 - pastFramesOf ⟨10, 0, 0⟩ ≠ 0 →
            (onAnimationFrame ⟨10, 0, 0⟩ ⟨[], []⟩ 25).1.lastTime = 25)
        ∧ ∀ i : ℕ, (i : ℤ) < allFramesOf ⟨10, 0, 0⟩ 25 - pastFramesOf ⟨10, 0, 0⟩ →
            (onAnimationFrame ⟨10, 0, 0⟩ ⟨[], []⟩ 25).2.2[i]? =
              some (pastFramesOf ⟨10, 0, 0⟩ + (i : ℤ))) :=
  ⟨by norm_num, by norm_num,
    C1_scheduler_tick ⟨10, 0, 0⟩ ⟨[], []⟩ 25 (by norm_num) (by norm_num)⟩

/-! ## C6: concrete frame counts at stepMs = 16.667 -/

/-- C6: with `stepMs = 16.667`, `startTime = 0`, `lastTime = 0`, a tick at
`currentTime = 50` runs exactly frames `[0, 1]`; a subsequent tick at
`currentTime = 100` (no intermediate ticks) runs exactly the remaining due
frames `[2, 3, 4]` (i.e. `floor(100/16.667) = 5` minus the 2 already run),
without re-running frames 0-1. -/
theorem C6_frame_counts :
    (onAnimationFrame ⟨16.667, 0, 0⟩ ⟨[], []⟩ 50).2.2 = [0, 1]
    ∧ (onAnimationFrame (onAnimationFrame ⟨16.667, 0, 0⟩ ⟨[], []⟩ 50).1
        (onAnimationFrame ⟨16.667, 0, 0⟩ ⟨[], []⟩ 50).2.1 100).2.2 = [2, 3, 4] := by
  have h1 : pastFramesOf ⟨16.667, 0, 0⟩ = 0 := by norm_num [pastFramesOf]
  have h2 : allFramesOf ⟨16.667, 0, 0⟩ 50 = 2 := by norm_num [allFramesOf]
  have h3 : pastFramesOf ⟨16.667, 0, 50⟩ = 2 := by norm_num [pastFramesOf]
  have h4 : allFramesOf ⟨16.667, 0, 50⟩ 100 = 5 := by norm_num [allFramesOf]
  have hc : (onAnimationFrame ⟨16.667, 0, 0⟩ ⟨[], []⟩ 50).1 = ⟨16.667, 0, 50⟩ := by
    rw [onAnimationFrame_clock, h1, h2, if_neg (by decide)]
  refine ⟨?_, ?_⟩
  · rw [onAnimationFrame_frames, h1, h2]
    decide
  · rw [hc, onAnimationFrame_frames, h3, h4]
    decide

/-! ## C7: a second tick at the same sampled time is a no-op -/

/-- C7: running a scheduler tick at some `currentTime` and then immediately a
second tick at the same `currentTime` executes zero steps in the second tick,
and the second tick changes neither the clock nor the box state. -/
theorem C7_second_tick_noop (c : Clock) (ph : Physics) (t : ℚ) :
    (onAnimationFrame (onAnimationFrame c ph t).1 (onAnimationFrame c ph t).2.1 t).2.2 = []
    ∧ (onAnimationFrame (onAnimationFrame c ph t).1 (onAnimationFrame c ph t).2.1 t).1
        = (onAnimationFrame c ph t).1
    ∧ (onAnimationFrame (onAnimationFrame c ph t).1 (onAnimationFrame c ph t).2.1 t).2.1
        = (onAnimationFrame c ph t).2.1 := by
  have hph := onAnimationFrame_physics c ph t
  by_cases h : allFramesOf c t - pastFramesOf c = 0
  · have hc : (onAnimationFrame c ph t).1 = c := by
      rw [onAnimationFrame_clock, if_pos h]
    rw [hc, hph]
    refine ⟨?_, ?_, onAnimationFrame_physics c ph t⟩
    · rw [onAnimationFrame_frames, h]
      rfl
    · rw [onAnimationFrame_clock, if_pos h]
  · have hc : (onAnimationFrame c ph t).1 = { c with lastTime := t } := by
      rw [onAnimationFrame_clock, if_neg h]
    have h2 : allFramesOf { c with lastTime := t } t
        - pastFramesOf { c with lastTime := t } = 0 := sub_self _
    rw [hc, hph]
    refine ⟨?_, ?_, onAnimationFrame_physics _ ph t⟩
    · rw [onAnimationFrame_frames, h2]
      rfl
    · rw [onAnimationFrame_clock, if_pos h2]

/-! ## C10: rewound clock sample (non-monotone tick) -/

/-- C10 (amended): for a tick whose sampled time is far enough behind
`lastTime` that its frame index drops (`allFrames < pastFrames`), the computed
frame count is negative, zero steps execute, yet `lastTime` is still
overwritten with the earlier sample; consequently a later tick at the old
`lastTime` makes the in-between frame indices `allFrames, ..., pastFrames - 1`
due again (they are re-executed). -/
theorem C10_clock_rewind (c : Clock) (ph : Physics) (t : ℚ)
    (hdrop : allFramesOf c t < pastFramesOf c) :
    allFramesOf c t - pastFramesOf c < 0
    ∧ (onAnimationFrame c ph t).2.2 = []
    ∧ (onAnimationFrame c ph t).1.lastTime = t
    ∧ ∀ i : ℕ, (i : ℤ) < pastFramesOf c - allFramesOf c t →
        (onAnimationFrame (onAnimationFrame c ph t).1 (onAnimationFrame c ph t).2.1
            c.lastTime).2.2[i]? = some (allFramesOf c t + (i : ℤ)) := by
  have hne : allFramesOf c t - pastFramesOf c ≠ 0 := by omega
  have hc : (onAnimationFrame c ph t).1 = { c with lastTime := t } := by
    rw [onAnimationFrame_clock, if_neg hne]
  refine ⟨by omega, ?_, ?_, ?_⟩
  · rw [onAnimationFrame_frames]
    have hz : (allFramesOf c t - pastFramesOf c).toNat = 0 := by omega
    rw [hz]
    rfl
  · rw [hc]
  · intro i hi
    rw [hc, onAnimationFrame_physics, onAnimationFrame_frames]
    have heq : allFramesOf { c with lastTime := t } c.lastTime
        - pastFramesOf { c with lastTime := t } = pastFramesOf c - allFramesOf c t := rfl
    rw [heq]
    have hi' : i < (pastFramesOf c - allFramesOf c t).toNat := by omega
    rw [List.getElem?_map, List.getElem?_range hi']
    rfl

/-- C10 counterexample to the unamended claim: for `stepMs = 10`,
`startTime = 0`, `lastTime = 5` and the strictly earlier sample `t = 3`, the
computed frame count is `0`, not negative, and `lastTime` is NOT overwritten
(it stays `5`). -/
theorem C10_counterexample :
    (3 : ℚ) < (Clock.mk 10 0 5).lastTime
    ∧ ¬(allFramesOf ⟨10, 0, 5⟩ 3 - pastFramesOf ⟨10, 0, 5⟩ < 0)
    ∧ (onAnimationFrame ⟨10, 0, 5⟩ ⟨[], []⟩ 3).1.lastTime ≠ 3 := by
  have h1 : pastFramesOf ⟨10, 0, 5⟩ = 0 := by norm_num [pastFramesOf]
  have h2 : allFramesOf ⟨10, 0, 5⟩ 3 = 0 := by norm_num [allFramesOf]
  have hc : (onAnimationFrame ⟨10, 0, 5⟩ ⟨[], []⟩ 3).1 = ⟨10, 0, 5⟩ := by
    rw [onAnimationFrame_clock, h1, h2, if_pos (by decide)]
  refine ⟨by norm_num, by rw [h1, h2]; decide, by rw [hc]; norm_num⟩

/-- C10 witness: the amended theorem applied at `stepMs = 10`, `startTime = 0`,
`lastTime = 45`, rewound sample `t = 12`. -/
theorem C10_clock_rewind_witness :
    allFramesOf ⟨10, 0, 45⟩ 12 < pastFramesOf ⟨10, 0, 45⟩
    ∧ (allFramesOf ⟨10, 0, 45⟩ 12 - pastFramesOf ⟨10, 0, 45⟩ < 0
      ∧ (onAnimationFrame ⟨10, 0, 45⟩ ⟨[], []⟩ 12).2.2 = []
      ∧ (onAnimationFrame ⟨10, 0, 45⟩ ⟨[], []⟩ 12).1.lastTime = 12
      ∧ ∀ i : ℕ, (i : ℤ) < pastFramesOf ⟨10, 0, 45⟩ - allFramesOf ⟨10, 0, 45⟩ 12 →
          (onAnimationFrame (onAnimationFrame ⟨10, 0, 45⟩ ⟨[], []⟩ 12).1
              (onAnimationFrame ⟨10, 0, 45⟩ ⟨[], []⟩ 12).2.1
              (Clock.mk 10 0 45).lastTime).2.2[i]? =
            some (allFramesOf ⟨10, 0, 45⟩ 12 + (i : ℤ))) :=
  ⟨by norm_num [pastFramesOf, allFramesOf],
    C10_clock_rewind ⟨10, 0, 45⟩ ⟨[], []⟩ 12 (by norm_num [pastFramesOf, allFramesOf])⟩

/-! ## Registry and step claims -/

theorem lookupKey_append_right {κ α : Type} [DecidableEq κ] (l1 l2 : List (κ × α)) (q : κ)
    (h : lookupKey l1 q = none) : lookupKey (l1 ++ l2) q = lookupKey l2 q := by
  induction l1 with
  | nil => rfl
  | cons kv rest ih =>
      obtain ⟨k, v⟩ := kv
      by_cases hk : k = q
      · simp [lookupKey, hk] at h
      · simp only [List.cons_append, lookupKey, if_neg hk] at h ⊢
        exact ih h

theorem hasId_false_lookup_none (st : Physics) (id : String)
    (h : st.hasId id = false) : lookupKey st.registry id = none := by
  cases hval : lookupKey st.registry id with
  | none => rfl
  | some v => simp [Physics.hasId, hval] at h

/-- Sample boxes used by concrete instances below. -/
def boxA : Box := { id := "a", x := 0, y := 0, w := 1, h := 1, kind := BoxKind.solid }

def overlapBoxB : Box := { id := "b", x := 0.5, y := 0, w := 1, h := 1, kind := BoxKind.solid }

def farBoxC : Box := { id := "c", x := 2, y := 0, w := 1, h := 1, kind := BoxKind.solid }

def sensorBoxS : Box := { id := "s", x := 0, y := 0, w := 1, h := 1, kind := BoxKind.sensor }

def solidBoxT : Box := { id := "t", x := 0.5, y := 0, w := 1, h := 1, kind := BoxKind.solid }

/-- C3 (amended): an `add` whose resolved id (explicit or defaulted) equals
the id of an already-registered box fails with the assertion error and leaves
the registry unchanged (same size, same entries); an `add` whose resolved id
is fresh succeeds provided that id is also not an inherited
`Object.prototype` property key (the `in` duplicate check searches the
prototype chain, so such never-registered ids make `add` fail as well). -/
theorem C3_add_unique_id (st : Physics) (p : PartialBox) (m : String) :
    ((lookupKey st.registry (p.id.getD m)).isSome = true →
      (∃ e, (Physics.add st p m).1 = Except.error e) ∧ (Physics.add st p m).2 = st)
    ∧ (lookupKey st.registry (p.id.getD m) = none →
      objectPrototypeKeys.contains (p.id.getD m) = false →
      ∃ r, (Physics.add st p m).1 = Except.ok r) := by
  constructor
  · intro hreg
    have hdup : st.hasId (p.id.getD m) = true := by
      simp [Physics.hasId, hreg]
    refine ⟨⟨"Box@" ++ p.id.getD m ++ " already exists", ?_⟩, ?_⟩ <;>
      simp [Physics.add, hdup]
  · intro hfreshr hproto
    have hfresh : st.hasId (p.id.getD m) = false := by
      simp only [Physics.hasId, hfreshr, Option.isSome_none, Bool.false_or]
      exact hproto
    exact ⟨st.heap.length, by simp [Physics.add, hfresh]⟩

/-- C3 counterexample to the unamended claim: the resolved id `"toString"` is
fresh — no box with that id was ever registered (the registry is empty) — yet
the `add` call fails, because the JS `in` check finds the inherited
`Object.prototype.toString` key, and the state is unchanged. -/
theorem C3_counterexample :
    lookupKey (⟨[], []⟩ : Physics).registry "toString" = none
    ∧ (∃ e, (Physics.add ⟨[], []⟩ ⟨some "toString", none, none, none, none, none⟩ "z").1
        = Except.error e)
    ∧ (Physics.add ⟨[], []⟩ ⟨some "toString", none, none, none, none, none⟩ "z").2
        = ⟨[], []⟩ := by
  exact ⟨rfl, ⟨"Box@toString already exists", rfl⟩, by decide⟩

/-- C3 witness: a duplicate `add` of id `"a"` on a registry already holding
`"a"` fails and leaves the state unchanged; an `add` of the fresh,
non-prototype id `"b"` succeeds. -/
theorem C3_add_unique_id_witness :
    ((∃ e, (Physics.add ⟨[boxA], [("a", 0)]⟩ ⟨some "a", none, none, none, none, none⟩ "z").1
        = Except.error e)
      ∧ (Physics.add ⟨[boxA], [("a", 0)]⟩ ⟨some "a", none, none, none, none, none⟩ "z").2
        = ⟨[boxA], [("a", 0)]⟩)
    ∧ (∃ r, (Physics.add ⟨[boxA], [("a", 0)]⟩ ⟨some "b", none, none, none, none, none⟩ "z").1
        = Except.ok r) :=
  ⟨(C3_add_unique_id ⟨[boxA], [("a", 0)]⟩ ⟨some "a", none, none, none, none, none⟩ "z").1
      (by decide),
    (C3_add_unique_id ⟨[boxA], [("a", 0)]⟩ ⟨some "b", none, none, none, none, none⟩ "z").2
      (by decide) (by decide)⟩

/-- C5 (amended): `add` performs no dimension validation: whenever the
resolved id passes the `in` duplicate check (it is neither registered nor an
inherited `Object.prototype` property key) the call succeeds and stores the
box even when its width or height is non-positive; and `step` never throws
for any box data — it is a total function that returns normally (unchanged
state, no callbacks) on every state. -/
theorem C5_add_no_dimension_check (st : Physics) (p : PartialBox) (m : String)
    (hfresh : st.hasId (p.id.getD m) = false) :
    (∃ r, (Physics.add st p m).1 = Except.ok r
      ∧ (Physics.add st p m).2.readRef r =
          some { id := p.id.getD m, x := p.x.getD 0, y := p.y.getD 0,
                 w := p.w.getD 1, h := p.h.getD 1, kind := p.kind.getD BoxKind.solid })
    ∧ ∀ st' : Physics, Physics.step st' = (st', []) := by
  refine ⟨⟨st.heap.length, ?_, ?_⟩, fun st' => rfl⟩
  · simp [Physics.add, hfresh]
  · simp [Physics.add, hfresh, Physics.readRef, List.getElem?_concat_length]

/-- C5 counterexample to the unamended claim: an `add` of a box with width
`w = 0` (non-positive) and a fresh id does NOT fail — it succeeds and stores
the degenerate box. -/
theorem C5_counterexample :
    (Physics.add ⟨[], []⟩ ⟨some "a", none, none, some 0, none, none⟩ "z").1 = Except.ok 0
    ∧ (Physics.add ⟨[], []⟩ ⟨some "a", none, none, some 0, none, none⟩ "z").2.getBox "a"
      = some { id := "a", x := 0, y := 0, w := 0, h := 1, kind := BoxKind.solid } :=
  ⟨rfl, rfl⟩

/-- C5 witness: the amended theorem applied to a box with `w = 0` and
`h = -1` on the empty state. -/
theorem C5_add_no_dimension_check_witness :
    Physics.hasId ⟨[], []⟩ ((⟨some "d", none, none, some 0, some (-1), none⟩ : PartialBox).id.getD "z") = false
    ∧ ((∃ r, (Physics.add ⟨[], []⟩ ⟨some "d", none, none, some 0, some (-1), none⟩ "z").1 = Except.ok r
        ∧ (Physics.add ⟨[], []⟩ ⟨some "d", none, none, some 0, some (-1), none⟩ "z").2.readRef r =
            some { id := (⟨some "d", none, none, some 0, some (-1), none⟩ : PartialBox).id.getD "z",
                   x := (⟨some "d", none, none, some 0, some (-1), none⟩ : PartialBox).x.getD 0,
                   y := (⟨some "d", none, none, some 0, some (-1), none⟩ : PartialBox).y.getD 0,
                   w := (⟨some "d", none, none, some 0, some (-1), none⟩ : PartialBox).w.getD 1,
                   h := (⟨some "d", none, none, some 0, some (-1), none⟩ : PartialBox).h.getD 1,
                   kind := (⟨some "d", none, none, some 0, some (-1), none⟩ : PartialBox).kind.getD BoxKind.solid })
      ∧ ∀ st' : Physics, Physics.step st' = (st', [])) :=
  ⟨by decide,
    C5_add_no_dimension_check ⟨[], []⟩ ⟨some "d", none, none, some 0, some (-1), none⟩ "z"
      (by decide)⟩

/-- C2 (amended): the shipped `step` performs no collision detection: it
invokes the collision callback zero times (hence never more than once per
unordered pair) and leaves the state unchanged; no pair of boxes, overlapping
or not, is reported as colliding. -/
theorem C2_step_reports_no_pairs (st : Physics) :
    (Physics.step st).2 = [] ∧ (Physics.step st).1 = st :=
  ⟨rfl, rfl⟩

/-- C2 counterexample to the unamended claim: boxes at `(0,0,1,1)` and
`(0.5,0,1,1)` do overlap (and `(0,0,1,1)` and `(2,0,1,1)` do not), yet a
`step` on a state holding exactly the two overlapping boxes reports no pair,
so the callback is not invoked exactly once for that overlapping pair. -/
theorem C2_counterexample :
    Box.overlaps boxA overlapBoxB = true
    ∧ Box.overlaps boxA farBoxC = false
    ∧ (Physics.step ⟨[boxA, overlapBoxB], [("a", 0), ("b", 1)]⟩).2 = [] := by
  refine ⟨?_, ?_, rfl⟩ <;> norm_num [Box.overlaps, boxA, overlapBoxB, farBoxC]

/-- C4 (amended): for a state holding a `sensor` box overlapping a `solid`
box, `step` leaves both boxes (in particular their `x` and `y` positions)
unchanged, but does NOT invoke the collision callback on the pair: the shipped
`step` reports no collisions at all. -/
theorem C4_sensor_solid_step (st : Physics) (i j : String) (a b : Box)
    (ha : st.getBox i = some a) (hb : st.getBox j = some b)
    (_hka : a.kind = BoxKind.sensor) (_hkb : b.kind = BoxKind.solid)
    (_hov : Box.overlaps a b = true) :
    ((Physics.step st).1.getBox i = some a ∧ (Physics.step st).1.getBox j = some b)
    ∧ (Physics.step st).2 = [] :=
  ⟨⟨ha, hb⟩, rfl⟩

/-- C4 counterexample to the unamended claim: a `sensor` box at `(0,0,1,1)`
overlaps a `solid` box at `(0.5,0,1,1)`, yet `step` on a state holding exactly
these two boxes invokes the callback on no pair at all (the report is empty),
so the callback is not invoked on that pair. -/
theorem C4_counterexample :
    sensorBoxS.kind = BoxKind.sensor
    ∧ solidBoxT.kind = BoxKind.solid
    ∧ Box.overlaps sensorBoxS solidBoxT = true
    ∧ (Physics.step ⟨[sensorBoxS, solidBoxT], [("s", 0), ("t", 1)]⟩).2 = [] := by
  refine ⟨rfl, rfl, ?_, rfl⟩
  norm_num [Box.overlaps, sensorBoxS, solidBoxT]

/-- C4 witness: the amended theorem applied to the sensor box `"s"` at
`(0,0,1,1)` and the solid box `"t"` at `(0.5,0,1,1)`. -/
theorem C4_sensor_solid_step_witness :
    Physics.getBox ⟨[sensorBoxS, solidBoxT], [("s", 0), ("t", 1)]⟩ "s" = some sensorBoxS
    ∧ Physics.getBox ⟨[sensorBoxS, solidBoxT], [("s", 0), ("t", 1)]⟩ "t" = some solidBoxT
    ∧ sensorBoxS.kind = BoxKind.sensor
    ∧ solidBoxT.kind = BoxKind.solid
    ∧ Box.overlaps sensorBoxS solidBoxT = true
    ∧ (((Physics.step ⟨[sensorBoxS, solidBoxT], [("s", 0), ("t", 1)]⟩).1.getBox "s"
          = some sensorBoxS
        ∧ (Physics.step ⟨[sensorBoxS, solidBoxT], [("s", 0), ("t", 1)]⟩).1.getBox "t"
          = some solidBoxT)
      ∧ (Physics.step ⟨[sensorBoxS, solidBoxT], [("s", 0), ("t", 1)]⟩).2 = []) :=
  ⟨rfl, rfl, rfl, rfl, by norm_num [Box.overlaps, sensorBoxS, solidBoxT],
    C4_sensor_solid_step ⟨[sensorBoxS, solidBoxT], [("s", 0), ("t", 1)]⟩ "s" "t"
      sensorBoxS solidBoxT rfl rfl rfl rfl
      (by norm_num [Box.overlaps, sensorBoxS, solidBoxT])⟩

/-- C8 (amended): for a partial box whose resolved id passes the `in`
duplicate check (it is neither registered nor an inherited `Object.prototype`
property key), `add` fills each omitted field with its default (`id` = the
RNG-minted string, `x = 0`, `y = 0`, `w = 1`, `h = 1`, `kind = solid`), stores
the resulting box in the registry under its id, and returns the very box
object that is stored: the registry entry for the id and the returned
reference denote the same heap cell, so a later field mutation through the
returned reference is visible in the registry and vice versa. -/
theorem C8_add_defaults_and_aliasing (st : Physics) (p : PartialBox) (m : String)
    (hfresh : st.hasId (p.id.getD m) = false) :
    ∃ r, (Physics.add st p m).1 = Except.ok r
      ∧ (Physics.add st p m).2.getBox (p.id.getD m) =
          some { id := p.id.getD m, x := p.x.getD 0, y := p.y.getD 0,
                 w := p.w.getD 1, h := p.h.getD 1, kind := p.kind.getD BoxKind.solid }
      ∧ (Physics.add st p m).2.getBox (p.id.getD m) = (Physics.add st p m).2.readRef r
      ∧ ∀ b' : Box,
          ((Physics.add st p m).2.writeRef r b').getBox (p.id.getD m) = some b'
          ∧ ((Physics.add st p m).2.writeRef r b').readRef r = some b' := by
  have hnone : lookupKey st.registry (p.id.getD m) = none :=
    hasId_false_lookup_none st (p.id.getD m) hfresh
  have hlook : lookupKey (st.registry ++ [(p.id.getD m, st.heap.length)]) (p.id.getD m)
      = some st.heap.length := by
    rw [lookupKey_append_right _ _ _ hnone]
    simp [lookupKey]
  refine ⟨st.heap.length, ?_, ?_, ?_, ?_⟩
  · simp [Physics.add, hfresh]
  · simp [Physics.add, hfresh, Physics.getBox, hlook, Physics.readRef,
      List.getElem?_concat_length]
  · simp [Physics.add, hfresh, Physics.getBox, hlook]
  · intro b'
    have hset : ((st.heap ++
        [({ id := p.id.getD m, x := p.x.getD 0, y := p.y.getD 0, w := p.w.getD 1,
            h := p.h.getD 1, kind := p.kind.getD BoxKind.solid } : Box)]).set
          st.heap.length b')[st.heap.length]? = some b' :=
      List.getElem?_set_self (by simp)
    constructor
    · simp [Physics.add, hfresh, Physics.getBox, Physics.writeRef, hlook,
        Physics.readRef, hset]
    · simp [Physics.add, hfresh, Physics.writeRef, Physics.readRef, hset]


/-- C8 counterexample to the unamended claim: for the partial box argument
with explicit id `"hasOwnProperty"` on an empty registry, `add` does not
store and return the box — it fails, because the JS `in` duplicate check
finds the inherited `Object.prototype.hasOwnProperty` key. -/
theorem C8_counterexample :
    (∃ e, (Physics.add ⟨[], []⟩ ⟨some "hasOwnProperty", none, none, none, none, none⟩ "z").1
        = Except.error e)
    ∧ (Physics.add ⟨[], []⟩ ⟨some "hasOwnProperty", none, none, none, none, none⟩ "z").2.getBox
        "hasOwnProperty" = none :=
  ⟨⟨"Box@hasOwnProperty already exists", rfl⟩, by decide⟩

/-- C8 witness: the theorem applied to the all-defaults partial box `{}` with
minted id `"0.8390"` on the empty state, followed by a mutation of the stored
box through the returned reference. -/
theorem C8_add_defaults_and_aliasing_witness :
    Physics.hasId ⟨[], []⟩ ((⟨none, none, none, none, none, none⟩ : PartialBox).id.getD "0.8390") = false
    ∧ ∃ r, (Physics.add ⟨[], []⟩ ⟨none, none, none, none, none, none⟩ "0.8390").1 = Except.ok r
      ∧ (Physics.add ⟨[], []⟩ ⟨none, none, none, none, none, none⟩ "0.8390").2.getBox
            ((⟨none, none, none, none, none, none⟩ : PartialBox).id.getD "0.8390") =
          some { id := (⟨none, none, none, none, none, none⟩ : PartialBox).id.getD "0.8390",
                 x := (⟨none, none, none, none, none, none⟩ : PartialBox).x.getD 0,
                 y := (⟨none, none, none, none, none, none⟩ : PartialBox).y.getD 0,
                 w := (⟨none, none, none, none, none, none⟩ : PartialBox).w.getD 1,
                 h := (⟨none, none, none, none, none, none⟩ : PartialBox).h.getD 1,
                 kind := (⟨none, none, none, none, none, none⟩ : PartialBox).kind.getD BoxKind.solid }
      ∧ (Physics.add ⟨[], []⟩ ⟨none, none, none, none, none, none⟩ "0.8390").2.getBox
            ((⟨none, none, none, none, none, none⟩ : PartialBox).id.getD "0.8390")
          = (Physics.add ⟨[], []⟩ ⟨none, none, none, none, none, none⟩ "0.8390").2.readRef r
      ∧ ∀ b' : Box,
          ((Physics.add ⟨[], []⟩ ⟨none, none, none, none, none, none⟩ "0.8390").2.writeRef r b').getBox
              ((⟨none, none, none, none, none, none⟩ : PartialBox).id.getD "0.8390") = some b'
          ∧ ((Physics.add ⟨[], []⟩ ⟨none, none, none, none, none, none⟩ "0.8390").2.writeRef r b').readRef r
              = some b' :=
  ⟨by decide,
    C8_add_defaults_and_aliasing ⟨[], []⟩ ⟨none, none, none, none, none, none⟩ "0.8390"
      (by decide)⟩

/-! ## C9: the seed-to-generator cache -/

theorem lookupKey_none_not_mem {κ α : Type} [DecidableEq κ] (l : List (κ × α)) (q : κ)
    (h : lookupKey l q = none) : q ∉ l.map Prod.fst := by
  induction l with
  | nil => simp
  | cons kv rest ih =>
      obtain ⟨k, v⟩ := kv
      by_cases hk : k = q
      · simp [lookupKey, hk] at h
      · simp only [lookupKey, if_neg hk] at h
        simp only [List.map_cons, List.mem_cons]
        rintro (rfl | hmem)
        · exact hk rfl
        · exact ih h hmem

theorem drawAt_length (gens : List PRNG) (r : Nat) :
    (drawAt gens r).length = gens.length := by
  unfold drawAt
  cases gens[r]? <;> simp

/-- The invariant of the process-wide RNG cache: no seed appears twice, no
generator reference appears twice, and every cached reference points into the
generator heap. -/
def CacheOk (st : RandomState) : Prop :=
  (st.random_cache.map Prod.fst).Nodup
  ∧ (st.random_cache.map Prod.snd).Nodup
  ∧ ∀ e ∈ st.random_cache, e.2 < st.gens.length

theorem cacheOk_init : CacheOk RandomState.init := by
  refine ⟨by simp [RandomState.init], by simp [RandomState.init], ?_⟩
  intro e he
  simp [RandomState.init] at he

theorem cacheOk_random (st : RandomState) (s : Option String) (h : CacheOk st) :
    CacheOk (random st s).1 := by
  obtain ⟨hfst, hsnd, hlt⟩ := h
  cases hl : lookupKey st.random_cache s with
  | some r =>
      refine ⟨?_, ?_, ?_⟩ <;> simp only [random, hl]
      · exact hfst
      · exact hsnd
      · intro e he
        simpa [drawAt_length] using hlt e he
  | none =>
      have hnotmem : s ∉ st.random_cache.map Prod.fst :=
        lookupKey_none_not_mem _ _ hl
      have hsnotmem : st.gens.length ∉ st.random_cache.map Prod.snd := by
        intro hmem
        obtain ⟨e, he, hee⟩ := List.mem_map.mp hmem
        exact absurd (hee ▸ hlt e he) (lt_irrefl _)
      refine ⟨?_, ?_, ?_⟩ <;> simp only [random, hl]
      · simp only [List.map_append, List.map_cons, List.map_nil]
        exact List.Nodup.append hfst (List.nodup_singleton s)
          (by simpa [List.disjoint_singleton] using hnotmem)
      · simp only [List.map_append, List.map_cons, List.map_nil]
        exact List.Nodup.append hsnd (List.nodup_singleton _)
          (by simpa [List.disjoint_singleton] using hsnotmem)
      · intro e he
        simp only [drawAt_length, List.length_append, List.length_cons, List.length_nil]
        rcases List.mem_append.mp he with hmem | hmem
        · exact Nat.lt_succ_of_lt (hlt e hmem)
        · simp only [List.mem_singleton] at hmem
          subst hmem
          exact Nat.lt_succ_self _

theorem cacheOk_foldl (seeds : List (Option String)) (st : RandomState) (h : CacheOk st) :
    CacheOk (seeds.foldl (fun st s => (random st s).1) st) := by
  induction seeds generalizing st with
  | nil => exact h
  | cons s rest ih => exact ih _ (cacheOk_random st s h)

theorem cacheOk_runRandoms (seeds : List (Option String)) : CacheOk (runRandoms seeds) :=
  cacheOk_foldl seeds RandomState.init cacheOk_init

theorem nodup_snd_inj {l : List (Option String × Nat)}
    (h : (l.map Prod.snd).Nodup) {s1 s2 : Option String} {r1 r2 : Nat}
    (h1 : (s1, r1) ∈ l) (h2 : (s2, r2) ∈ l) (hne : s1 ≠ s2) : r1 ≠ r2 := by
  induction l with
  | nil => cases h1
  | cons hd tl ih =>
      simp only [List.map_cons, List.nodup_cons] at h
      rcases List.mem_cons.mp h1 with he1 | ht1 <;>
        rcases List.mem_cons.mp h2 with he2 | ht2
      · exact absurd (congrArg Prod.fst (he1.trans he2.symm)) hne
      · intro hr
        subst he1
        exact h.1 (by simpa [← hr] using List.mem_map_of_mem Prod.snd ht2)
      · intro hr
        subst he2
        exact h.1 (by simpa [hr] using List.mem_map_of_mem Prod.snd ht1)
      · exact ih h.2 ht1 ht2

/-- C9: on any reachable RNG state (any sequence of prior `random` calls from
the module-initial empty cache), a call with a seed absent from the cache
constructs and caches exactly one new generator for that seed (seeded with
that seed, drawn from exactly once by this call); a call with a cached seed
draws from that same cached generator instance (same reference, no new
generator, cache unchanged); the cache only ever grows; and no two distinct
seed values ever share a generator reference. -/
theorem C9_rng_cache (seeds : List (Option String)) (s : Option String) :
    (lookupKey (runRandoms seeds).random_cache s = none →
      (random (runRandoms seeds) s).1.random_cache
          = (runRandoms seeds).random_cache ++ [(s, (runRandoms seeds).gens.length)]
      ∧ (random (runRandoms seeds) s).1.gens.length = (runRandoms seeds).gens.length + 1
      ∧ (random (runRandoms seeds) s).2 = (runRandoms seeds).gens.length
      ∧ (random (runRandoms seeds) s).1.gens[(runRandoms seeds).gens.length]?
          = some { seed := s, draws := 1 })
    ∧ (∀ r, lookupKey (runRandoms seeds).random_cache s = some r →
      (random (runRandoms seeds) s).2 = r
      ∧ (random (runRandoms seeds) s).1.random_cache = (runRandoms seeds).random_cache
      ∧ (random (runRandoms seeds) s).1.gens.length = (runRandoms seeds).gens.length)
    ∧ (∃ tail, (random (runRandoms seeds) s).1.random_cache
        = (runRandoms seeds).random_cache ++ tail)
    ∧ (∀ s1 s2 r1 r2, (s1, r1) ∈ (runRandoms seeds).random_cache →
        (s2, r2) ∈ (runRandoms seeds).random_cache → s1 ≠ s2 → r1 ≠ r2) := by
  refine ⟨?_, ?_, ?_, ?_⟩
  · intro hl
    have hget : ((runRandoms seeds).gens ++
        [({ seed := s, draws := 0 } : PRNG)])[(runRandoms seeds).gens.length]?
          = some { seed := s, draws := 0 } :=
      List.getElem?_concat_length _ _
    refine ⟨by simp [random, hl], ?_, by simp [random, hl], ?_⟩
    · simp [random, hl, drawAt_length]
    · simp only [random, hl, drawAt, hget]
      exact List.getElem?_set_self (by simp)
  · intro r hl
    exact ⟨by simp [random, hl], by simp [random, hl], by simp [random, hl, drawAt_length]⟩
  · cases hl : lookupKey (runRandoms seeds).random_cache s with
    | some r => exact ⟨[], by simp [random, hl]⟩
    | none => exact ⟨[(s, (runRandoms seeds).gens.length)], by simp [random, hl]⟩
  · intro s1 s2 r1 r2 h1 h2 hne
    exact nodup_snd_inj (cacheOk_runRandoms seeds).2.1 h1 h2 hne

/-- C9 witness: the theorem applied, first, to the fresh unseeded key on the
initial state and, second, to the already-cached seed `"a"` after one prior
call with `"a"`. -/
theorem C9_rng_cache_witness :
    (lookupKey (runRandoms []).random_cache none = none
      ∧ ((random (runRandoms []) none).1.random_cache
            = (runRandoms []).random_cache ++ [(none, (runRandoms []).gens.length)]
        ∧ (random (runRandoms []) none).1.gens.length = (runRandoms []).gens.length + 1
        ∧ (random (runRandoms []) none).2 = (runRandoms []).gens.length
        ∧ (random (runRandoms []) none).1.gens[(runRandoms []).gens.length]?
            = some { seed := none, draws := 1 }))
    ∧ (lookupKey (runRandoms [some "a"]).random_cache (some "a") = some 0
      ∧ ((random (runRandoms [some "a"]) (some "a")).2 = 0
        ∧ (random (runRandoms [some "a"]) (some "a")).1.random_cache
            = (runRandoms [some "a"]).random_cache
        ∧ (random (runRandoms [some "a"]) (some "a")).1.gens.length
            = (runRandoms [some "a"]).gens.length)) :=
  ⟨⟨by decide, (C9_rng_cache [] none).1 (by decide)⟩,
    ⟨by decide, (C9_rng_cache [some "a"] (some "a")).2.1 0 (by decide)⟩⟩
